/-
Verification of the timed interview session controller of the
Swipe_Internship_Assignment repository.

The embedding models:
  - the Redux candidate slice (src/frontend/src/store/candidateSlice.ts):
    reducers startInterview, addAnswer, nextQuestion, completeInterview;
  - the InterviewChat session controller component
    (src/frontend/src/components, the revision that integrates the
    voice-recorder interface with onRecordingStateChange, the auto-submit
    bypass of the isSubmitting guard, the timeout sentinel answer and the
    timer safety-net effect): handleStartInterview, handleSubmitAnswer,
    startTimer / stopTimer, getTimeLimit, the timer interval tick, the
    safety-net effect, and the Submit button gating;
  - the local-storage archival helpers
    (src/frontend/src/utils/interviewStorage.ts).

Modelling conventions: the controller is single-threaded and event driven,
so operations are modelled as atomic transitions of an explicit state
record; ISO timestamps and Date.now() are modelled as millisecond counts
(Nat) supplied by the environment; JavaScript numbers occurring in score
arithmetic are modelled as rationals; network calls are modelled by an
Except outcome supplied by the environment.  Deferred handleSubmitAnswer
invocations (the setTimeout auto-submit of the interval handler and of the
safety-net effect) are modelled by a pending-callback counter: scheduling
increments it and a separate delivery operation consumes it, so stale
deliveries are expressible exactly as in the event loop.
-/
import Mathlib

namespace Swipe

/-- Difficulty union type of GeneratedQuestion
("easy" | "medium" | "hard", src/frontend/src/api/services.ts). -/
inductive Difficulty where
  | easy
  | medium
  | hard
deriving DecidableEq, Repr

/-- String value carried by a Difficulty at runtime. -/
def Difficulty.str : Difficulty → String
  | .easy => "easy"
  | .medium => "medium"
  | .hard => "hard"

/-- GeneratedQuestion (src/frontend/src/api/services.ts). -/
structure GeneratedQuestion where
  id : Int
  question : String
  difficulty : Difficulty
  category : String
  expected_topics : List String
deriving DecidableEq, Repr

/-- InterviewAnswer (src/frontend/src/store/candidateSlice.ts).  The ISO
timestamp string is modelled as the millisecond clock value it encodes. -/
structure InterviewAnswer where
  questionId : String
  question : String
  answer : String
  timestamp : Nat
  difficulty : Difficulty
  category : String
deriving DecidableEq, Repr

/-- final_score object of the scoring-service response
(src/frontend/src/api/services.ts, ScoringResponse). -/
structure FinalScore where
  content_score : ℚ
  overall_score : ℚ
deriving DecidableEq, Repr

/-- ScoringResponse as consumed by the controller: it reads
final_score?.overall_score ?? 0 and overall_feedback.  Remaining response
fields are carried opaquely by scoringResults and are not read back. -/
structure ScoringResponse where
  total_questions : Nat
  questions_attempted : Nat
  final_score : Option FinalScore
  overall_feedback : String
deriving DecidableEq, Repr

/-- Education entry of CandidateProfile (candidateSlice.ts). -/
structure Education where
  institution : String
deriving DecidableEq, Repr

/-- Experience entry of CandidateProfile (candidateSlice.ts).  The TS field
named end is rendered endDate, Lean reserving the word. -/
structure Experience where
  key : String
  start : String
  endDate : String
  description : List String
deriving DecidableEq, Repr

/-- Project entry of CandidateProfile (candidateSlice.ts). -/
structure Project where
  title : String
  description : List String
deriving DecidableEq, Repr

/-- CandidateProfile (src/frontend/src/store/candidateSlice.ts). -/
structure CandidateProfile where
  name : String
  email : String
  phone : String
  linkedin : Option String := none
  github : Option String := none
  website : Option String := none
  education : Option (List Education) := none
  experience : Option (List Experience) := none
  projects : Option (List Project) := none
  skills : Option (List String) := none
deriving DecidableEq, Repr

/-- InterviewProgress (src/frontend/src/store/candidateSlice.ts). -/
structure InterviewProgress where
  questionIndex : Nat
  answers : List InterviewAnswer
  isComplete : Bool
  startedAt : Option Nat := none
  completedAt : Option Nat := none
  generatedQuestions : Option (List GeneratedQuestion) := none
  scoringResults : Option ScoringResponse := none
deriving DecidableEq, Repr

/-- resumeFile metadata (candidateSlice.ts CandidateState). -/
structure ResumeFile where
  name : String
  size : Nat
  type : String
deriving DecidableEq, Repr

/-- CandidateState (src/frontend/src/store/candidateSlice.ts). -/
structure CandidateState where
  id : Option String := none
  profile : Option CandidateProfile := none
  isProfileComplete : Bool := false
  resumeFile : Option ResumeFile := none
  resumePath : Option String := none
  resumeText : Option String := none
  resumeBase64 : Option String := none
  interviewProgress : InterviewProgress
  finalScore : Option Int := none
  summary : Option String := none
  lastUpdated : Option Nat := none
deriving DecidableEq, Repr

/-- initialState of the candidate slice (candidateSlice.ts). -/
def initialCandidateState : CandidateState :=
  { interviewProgress := { questionIndex := 0, answers := [], isComplete := false } }

/-- Reducer startInterview (candidateSlice.ts): stamps startedAt, resets the
index, the answer list and the completion flag, and stores the question
list.  now is the millisecond clock at dispatch time. -/
def startInterviewReducer (now : Nat) (qs : List GeneratedQuestion)
    (c : CandidateState) : CandidateState :=
  { c with
    interviewProgress :=
      { c.interviewProgress with
        startedAt := some now
        questionIndex := 0
        answers := []
        isComplete := false
        generatedQuestions := some qs }
    lastUpdated := some now }

/-- Reducer addAnswer (candidateSlice.ts): pushes the answer. -/
def addAnswerReducer (now : Nat) (a : InterviewAnswer)
    (c : CandidateState) : CandidateState :=
  { c with
    interviewProgress :=
      { c.interviewProgress with answers := c.interviewProgress.answers ++ [a] }
    lastUpdated := some now }

/-- Reducer nextQuestion (candidateSlice.ts): increments questionIndex. -/
def nextQuestionReducer (now : Nat) (c : CandidateState) : CandidateState :=
  { c with
    interviewProgress :=
      { c.interviewProgress with
        questionIndex := c.interviewProgress.questionIndex + 1 }
    lastUpdated := some now }

/-- Reducer completeInterview (candidateSlice.ts): sets isComplete,
completedAt, finalScore and summary, and stores scoringResults when the
payload carries them. -/
def completeInterviewReducer (now : Nat) (score : Int) (summary : String)
    (scoringResults : Option ScoringResponse) (c : CandidateState) : CandidateState :=
  { c with
    interviewProgress :=
      { c.interviewProgress with
        isComplete := true
        completedAt := some now
        scoringResults :=
          match scoringResults with
          | some r => some r
          | none => c.interviewProgress.scoringResults }
    finalScore := some score
    summary := some summary
    lastUpdated := some now }

/-- Input tab of the answer area (text or voice). -/
inductive InputMethod where
  | text
  | voice
deriving DecidableEq, Repr

/-- Full controller state: the persisted candidate slice plus the
component-local useState hooks and useRef cells of InterviewChat.
pendingFires counts handleSubmitAnswer callbacks that have been scheduled
with setTimeout (by the interval expiry handler and by the safety-net
effect) but not yet delivered by the event loop. -/
structure State where
  candidate : CandidateState
  currentQuestion : Option GeneratedQuestion := none
  answerText : String := ""
  timeLeft : Nat := 0
  isSubmitting : Bool := false
  interviewStarted : Bool := false
  questionStartTime : Nat := 0
  isGeneratingQuestions : Bool := false
  isScoringAnswers : Bool := false
  inputMethod : InputMethod := .text
  isVoiceRecording : Bool := false
  autoSubmitRef : Bool := false
  answerTimes : List Nat := []
  timerRunning : Bool := false
  pendingFires : Nat := 0
deriving DecidableEq, Repr

/-- getTimeLimit (InterviewChat): switch on the difficulty string with a
default of 60 seconds. -/
def getTimeLimit (difficulty : String) : Nat :=
  if difficulty = "easy" then 20
  else if difficulty = "medium" then 60
  else if difficulty = "hard" then 120
  else 60

/-- startTimer (InterviewChat): arms the countdown with the given limit and
records the question start clock.  Clearing a previously armed interval is
the timerRunning overwrite. -/
def startTimer (now limit : Nat) (s : State) : State :=
  { s with timeLeft := limit, questionStartTime := now, timerRunning := true }

/-- stopTimer (InterviewChat): clears the interval if armed. -/
def stopTimer (s : State) : State :=
  { s with timerRunning := false }

/-- JavaScript String.prototype.trim modelled over the character list:
whitespace stripped from both ends. -/
def jsTrim (s : String) : String :=
  ⟨((s.data.dropWhile Char.isWhitespace).reverse.dropWhile Char.isWhitespace).reverse⟩

/-- Fallback base score of the scoring-failure branch of
handleSubmitAnswer: Math.min(100, Math.max(0, (avg / 50) * 60 + 20)),
where avg is the average answer length. -/
def fallbackBaseScore (avg : ℚ) : ℚ :=
  min 100 (max 0 (avg / 50 * 60 + 20))

/-- Average answer length used by the fallback branch:
allAnswers.reduce(sum of answer.length) / allAnswers.length. -/
def averageAnswerLength (allAnswers : List InterviewAnswer) : ℚ :=
  ((allAnswers.map (fun a => a.answer.length)).sum : ℚ) / (allAnswers.length : ℚ)

/-- Reading scoringResult.final_score?.overall_score ?? 0. -/
def overallOf (r : ScoringResponse) : ℚ :=
  match r.final_score with
  | some f => f.overall_score
  | none => 0

/-- Timeout sentinel substituted for an empty staged answer on
auto-submit (handleSubmitAnswer). -/
def timeoutSentinel : String := "No answer provided (time expired)"

/-- Generic completion summary substituted when scoring fails. -/
def fallbackSummary (totalQuestions : Nat) : String :=
  "Interview completed with " ++ toString totalQuestions ++
    " questions answered. Scoring service temporarily unavailable."

/-- handleSubmitAnswer (InterviewChat).  now is Date.now() at execution,
scoringOutcome the result of the awaited scoreAnswers call on the final
question (ok response or thrown error).  Guard: return unless a current
question and a generated question list exist, and, for a non-auto
invocation, unless no submission is in flight; an invocation with
autoSubmitRef set bypasses the isSubmitting check.  The Math.min clamp of
timeTaken is computed and discarded exactly as in the source; the raw
timeTaken is what reaches answerTimesRef. -/
def handleSubmitAnswer (now : Nat) (scoringOutcome : Except Unit ScoringResponse)
    (s : State) : State :=
  let isAuto := s.autoSubmitRef
  match s.currentQuestion, s.candidate.interviewProgress.generatedQuestions with
  | some q, some qs =>
    if !isAuto && s.isSubmitting then s
    else
      let s := stopTimer { s with isSubmitting := true }
      let timeTaken := (now - s.questionStartTime) / 1000
      let _clampedUnused := min timeTaken (getTimeLimit q.difficulty.str)
      let finalAnswer :=
        if jsTrim s.answerText ≠ "" then jsTrim s.answerText
        else if isAuto then timeoutSentinel else ""
      let ans : InterviewAnswer :=
        { questionId := toString q.id
          question := q.question
          answer := finalAnswer
          timestamp := now
          difficulty := q.difficulty
          category := q.category }
      let c1 := addAnswerReducer now ans s.candidate
      let currentIndex := s.candidate.interviewProgress.questionIndex
      let totalQuestions := qs.length
      let c2 := nextQuestionReducer now c1
      let s := { s with candidate := c2, answerTimes := s.answerTimes.set currentIndex timeTaken }
      if h : currentIndex + 1 ≥ totalQuestions then
        let s := { (stopTimer s) with currentQuestion := none, isScoringAnswers := true }
        let allAnswers := s.candidate.interviewProgress.answers
        match scoringOutcome with
        | .ok r =>
          let score := round (overallOf r)
          { s with
            candidate := completeInterviewReducer now score r.overall_feedback (some r) s.candidate
            isScoringAnswers := false
            isSubmitting := false }
        | .error _ =>
          let avg := averageAnswerLength allAnswers
          let baseScore := fallbackBaseScore avg
          { s with
            candidate :=
              completeInterviewReducer now (round baseScore) (fallbackSummary totalQuestions)
                none s.candidate
            isScoringAnswers := false
            isSubmitting := false }
      else
        let nq := qs.get ⟨currentIndex + 1, by omega⟩
        let s := { s with
          currentQuestion := some nq
          answerText := ""
          inputMethod := .text }
        let s := startTimer now (getTimeLimit nq.difficulty.str) s
        { s with autoSubmitRef := false, isSubmitting := false }
  | _, _ => s

/-- handleStartInterview (InterviewChat).  outcome is the result of the
awaited generateQuestions call.  On a thrown error the catch block leaves
the state untouched.  On an empty question list the source dispatches
startInterview, stores the empty answer-times array, clears
currentQuestion and sets interviewStarted before
getTimeLimit(firstQuestion.difficulty) throws on the undefined first
question, so the timer is never armed and the partially updated state
survives the caught TypeError. -/
def handleStartInterview (now : Nat) (outcome : Except Unit (List GeneratedQuestion))
    (s : State) : State :=
  if s.candidate.profile.isNone ∨ s.candidate.resumeText.isNone then s
  else
    match outcome with
    | .error _ => s
    | .ok qs =>
      let s := { s with
        candidate := startInterviewReducer now qs s.candidate
        answerTimes := List.replicate qs.length 0 }
      match qs with
      | [] =>
        { s with currentQuestion := none, interviewStarted := true }
      | q :: _ =>
        let s := { s with currentQuestion := some q, interviewStarted := true }
        startTimer now (getTimeLimit q.difficulty.str) s

/-- One tick of the 1-second countdown interval.  At one second or less
the handler clears the interval first, flags the invocation as an
auto-submit and schedules handleSubmitAnswer with setTimeout; the
scheduled callback is delivered later by Op.fire. -/
def tick (s : State) : State :=
  if s.timerRunning then
    if s.timeLeft ≤ 1 then
      { s with
        timeLeft := 0
        timerRunning := false
        autoSubmitRef := true
        pendingFires := s.pendingFires + 1 }
    else
      { s with timeLeft := s.timeLeft - 1 }
  else s

/-- Safety-net useEffect of InterviewChat: when timeLeft reached zero with
a current question, no submission in flight and no armed interval, it
flags an auto-submit and schedules handleSubmitAnswer after 100 ms. -/
def safetyCheck (s : State) : State :=
  if s.timeLeft = 0 ∧ s.currentQuestion.isSome ∧ s.isSubmitting = false
      ∧ s.timerRunning = false then
    { s with autoSubmitRef := true, pendingFires := s.pendingFires + 1 }
  else s

/-- Delivery of a scheduled handleSubmitAnswer callback by the event
loop.  The callback reads autoSubmitRef at execution time. -/
def fire (now : Nat) (scoringOutcome : Except Unit ScoringResponse) (s : State) : State :=
  if s.pendingFires = 0 then s
  else handleSubmitAnswer now scoringOutcome { s with pendingFires := s.pendingFires - 1 }

/-- Click on the Submit button: antd ignores the click while the button is
disabled (empty trimmed text with more than five seconds left and no voice
recording) or in the loading state (isSubmitting); otherwise
handleSubmitAnswer runs. -/
def clickSubmit (now : Nat) (scoringOutcome : Except Unit ScoringResponse)
    (s : State) : State :=
  let disabled := jsTrim s.answerText = "" ∧ s.timeLeft > 5 ∧ s.isVoiceRecording = false
  if disabled ∨ s.isSubmitting then s
  else handleSubmitAnswer now scoringOutcome s

/-- Edit of the answer TextArea; the control is disabled while a
submission is in flight. -/
def setAnswerText (t : String) (s : State) : State :=
  if s.isSubmitting then s else { s with answerText := t }

/-- Controller operations: interview start (with the question-source
outcome), a text edit, a Submit click, an interval tick, the safety-net
effect and the delivery of a scheduled auto-submit callback.  Clock values
and network outcomes are environment inputs carried by the operation. -/
inductive Op where
  | start (now : Nat) (outcome : Except Unit (List GeneratedQuestion))
  | setText (t : String)
  | click (now : Nat) (scoringOutcome : Except Unit ScoringResponse)
  | tick
  | safetyCheck
  | fire (now : Nat) (scoringOutcome : Except Unit ScoringResponse)

/-- Transition function of the controller. -/
def step (s : State) : Op → State
  | .start now outcome => handleStartInterview now outcome s
  | .setText t => setAnswerText t s
  | .click now sc => clickSubmit now sc s
  | .tick => tick s
  | .safetyCheck => safetyCheck s
  | .fire now sc => fire now sc s

/-- Execution of a sequence of operations. -/
def run (s : State) (ops : List Op) : State :=
  ops.foldl step s

/-- Initial mounted state for a candidate whose profile and resume were
already captured: the candidate slice is in its initial shape with the
profile fields populated, every component hook at its useState default. -/
def initState (p : CandidateProfile) (resume : String) : State :=
  { candidate := { initialCandidateState with profile := some p, resumeText := some resume } }

/-- SavedInterview record (src/frontend/src/utils/interviewStorage.ts).
ISO date strings are modelled as millisecond clock values. -/
structure SavedInterview where
  id : String
  candidateProfile : CandidateProfile
  interviewProgress : InterviewProgress
  finalScore : Option Int
  summary : Option String
  resumeFile : Option ResumeFile
  resumeBase64 : Option String
  completedAt : Nat
  savedAt : Nat
deriving DecidableEq, Repr

/-- Parsed content of a localStorage entry written by interviewStorage.ts:
either the JSON array of saved interview ids or a serialized
SavedInterview.  Values are stored parsed; serialization of these plain
records round-trips through JSON. -/
inductive StorageValue where
  | ids (l : List String)
  | interview (r : SavedInterview)
deriving DecidableEq, Repr

/-- localStorage modelled as a key-value list; the head entry for a key is
its current value. -/
def Storage := List (String × StorageValue)

/-- localStorage.getItem. -/
def lsGet (k : String) : Storage → Option StorageValue
  | [] => none
  | (k', v) :: rest => if k' = k then some v else lsGet k rest

/-- localStorage.removeItem. -/
def lsRemove (k : String) : Storage → Storage
  | [] => []
  | (k', v) :: rest => if k' = k then lsRemove k rest else (k', v) :: lsRemove k rest

/-- localStorage.setItem. -/
def lsSet (k : String) (v : StorageValue) (st : Storage) : Storage :=
  (k, v) :: lsRemove k st

/-- SAVED_INTERVIEWS_KEY of interviewStorage.ts. -/
def savedInterviewsKey : String := "swipe-saved-interviews"

/-- Key of an interview data entry: the INTERVIEW_PREFIX constant of
interviewStorage.ts followed by the interview id. -/
def interviewKey (id : String) : String := "swipe-interview-" ++ id

/-- getSavedInterviewIds (interviewStorage.ts): parse the stored id list,
an absent or unparseable entry yielding the empty list. -/
def getSavedInterviewIds (st : Storage) : List String :=
  match lsGet savedInterviewsKey st with
  | some (.ids l) => l
  | _ => []

/-- saveInterviewToStorage (interviewStorage.ts): store the interview data
under its key, then append the id to the saved-id list unless already
present. -/
def saveInterviewToStorage (r : SavedInterview) (st : Storage) : Storage :=
  let st1 := lsSet (interviewKey r.id) (.interview r) st
  let existingIds := getSavedInterviewIds st1
  if r.id ∈ existingIds then st1
  else lsSet savedInterviewsKey (.ids (existingIds ++ [r.id])) st1

/-- deleteSavedInterview (interviewStorage.ts): remove the data entry and
filter the id out of the saved-id list. -/
def deleteSavedInterview (id : String) (st : Storage) : Storage :=
  let st1 := lsRemove (interviewKey id) st
  let existingIds := getSavedInterviewIds st1
  lsSet savedInterviewsKey (.ids (existingIds.filter (fun i => i ≠ id))) st1

/-- getSavedInterviewById (interviewStorage.ts): parse the data entry for
the id, returning null when absent or unparseable. -/
def getSavedInterviewById (id : String) (st : Storage) : Option SavedInterview :=
  match lsGet (interviewKey id) st with
  | some (.interview r) => some r
  | _ => none

/-! Helper lemmas about the localStorage model. -/

theorem lsGet_lsRemove_self (k : String) (st : Storage) :
    lsGet k (lsRemove k st) = none := by
  induction st with
  | nil => rfl
  | cons p rest ih =>
    obtain ⟨k', v⟩ := p
    by_cases h : k' = k
    · simp [lsRemove, h, ih]
    · simp [lsRemove, lsGet, h, ih]

theorem lsGet_lsRemove_other (k k' : String) (st : Storage) (h : k' ≠ k) :
    lsGet k (lsRemove k' st) = lsGet k st := by
  induction st with
  | nil => rfl
  | cons p rest ih =>
    obtain ⟨k'', v⟩ := p
    by_cases h2 : k'' = k'
    · subst h2
      simp [lsRemove, lsGet, h, ih]
    · by_cases h3 : k'' = k <;>
        simp [lsRemove, lsGet, h2, h3, ih, Ne.symm h]

theorem lsGet_lsSet_self (k : String) (v : StorageValue) (st : Storage) :
    lsGet k (lsSet k v st) = some v := by
  simp [lsSet, lsGet]

theorem lsGet_lsSet_other (k k' : String) (v : StorageValue) (st : Storage)
    (h : k' ≠ k) : lsGet k (lsSet k' v st) = lsGet k st := by
  simp [lsSet, lsGet, h, lsGet_lsRemove_other k k' st h]

theorem interviewKey_ne_savedKey (id : String) :
    interviewKey id ≠ savedInterviewsKey := by
  intro h
  rw [interviewKey, savedInterviewsKey] at h
  have hd := congrArg String.data h
  rw [String.data_append] at hd
  have h6 := congrArg (fun l => l[6]?) hd
  simp only at h6
  rw [List.getElem?_append_left (by decide)] at h6
  exact absurd h6 (by decide)

theorem getSavedInterviewIds_lsSet_interview (id : String) (v : StorageValue)
    (st : Storage) :
    getSavedInterviewIds (lsSet (interviewKey id) v st) = getSavedInterviewIds st := by
  unfold getSavedInterviewIds
  rw [lsGet_lsSet_other _ _ _ _ (interviewKey_ne_savedKey id)]

theorem saveInterviewToStorage_eq (r : SavedInterview) (st : Storage) :
    saveInterviewToStorage r st =
      if r.id ∈ getSavedInterviewIds st then
        lsSet (interviewKey r.id) (.interview r) st
      else
        lsSet savedInterviewsKey (.ids (getSavedInterviewIds st ++ [r.id]))
          (lsSet (interviewKey r.id) (.interview r) st) := by
  unfold saveInterviewToStorage
  dsimp only
  rw [getSavedInterviewIds_lsSet_interview]

theorem getSavedInterviewIds_save (r : SavedInterview) (st : Storage) :
    getSavedInterviewIds (saveInterviewToStorage r st) =
      if r.id ∈ getSavedInterviewIds st then getSavedInterviewIds st
      else getSavedInterviewIds st ++ [r.id] := by
  rw [saveInterviewToStorage_eq]
  by_cases h : r.id ∈ getSavedInterviewIds st
  · simp [h, getSavedInterviewIds_lsSet_interview]
  · simp only [h, if_false]
    unfold getSavedInterviewIds
    rw [lsGet_lsSet_self]

/-- C10: saving an interview record makes it retrievable by its id;
deleting removes both the data entry and the id from the saved-id list;
saving the same record twice leaves exactly one occurrence of its id in
the saved-id list (from any store holding it at most once). -/
theorem C10_storage_roundtrip :
    (∀ (st : Storage) (r : SavedInterview),
      getSavedInterviewById r.id (saveInterviewToStorage r st) = some r)
    ∧ (∀ (st : Storage) (id : String),
      getSavedInterviewById id (deleteSavedInterview id st) = none
      ∧ id ∉ getSavedInterviewIds (deleteSavedInterview id st))
    ∧ (∀ (st : Storage) (r : SavedInterview),
      (getSavedInterviewIds st).count r.id ≤ 1 →
      (getSavedInterviewIds
        (saveInterviewToStorage r (saveInterviewToStorage r st))).count r.id = 1) := by
  refine ⟨?_, ?_, ?_⟩
  · intro st r
    rw [saveInterviewToStorage_eq]
    unfold getSavedInterviewById
    by_cases h : r.id ∈ getSavedInterviewIds st
    · simp [h, lsGet_lsSet_self]
    · simp [h, lsGet_lsSet_other _ _ _ _ (Ne.symm (interviewKey_ne_savedKey r.id)),
        lsGet_lsSet_self]
  · intro st id
    constructor
    · unfold deleteSavedInterview getSavedInterviewById
      rw [lsGet_lsSet_other _ _ _ _ (Ne.symm (interviewKey_ne_savedKey id)),
        lsGet_lsRemove_self]
    · unfold deleteSavedInterview getSavedInterviewIds
      rw [lsGet_lsSet_self]
      simp
  · intro st r hcount
    by_cases h : r.id ∈ getSavedInterviewIds st
    · have h1 : (getSavedInterviewIds st).count r.id = 1 :=
        Nat.le_antisymm hcount (List.count_pos_iff.mpr h)
      rw [getSavedInterviewIds_save, getSavedInterviewIds_save]
      simp [h, h1]
    · have h0 : (getSavedInterviewIds st).count r.id = 0 := List.count_eq_zero.mpr h
      rw [getSavedInterviewIds_save, getSavedInterviewIds_save]
      simp [h, List.count_append, h0]

/-- Per-id occurrence assumption of C10 discharged on a concrete store:
saving a concrete record twice into the empty store leaves its id exactly
once in the saved-id list. -/
theorem C10_storage_roundtrip_witness :
    (getSavedInterviewIds
      (saveInterviewToStorage
        { id := "cand-1"
          candidateProfile := { name := "A", email := "a@b.c", phone := "1" }
          interviewProgress := { questionIndex := 0, answers := [], isComplete := true }
          finalScore := some 80
          summary := some "ok"
          resumeFile := none
          resumeBase64 := none
          completedAt := 5
          savedAt := 6 }
        (saveInterviewToStorage
          { id := "cand-1"
            candidateProfile := { name := "A", email := "a@b.c", phone := "1" }
            interviewProgress := { questionIndex := 0, answers := [], isComplete := true }
            finalScore := some 80
            summary := some "ok"
            resumeFile := none
            resumeBase64 := none
            completedAt := 5
            savedAt := 6 }
          []))).count "cand-1" = 1 :=
  C10_storage_roundtrip.2.2 []
    { id := "cand-1"
      candidateProfile := { name := "A", email := "a@b.c", phone := "1" }
      interviewProgress := { questionIndex := 0, answers := [], isComplete := true }
      finalScore := some 80
      summary := some "ok"
      resumeFile := none
      resumeBase64 := none
      completedAt := 5
      savedAt := 6 }
    (by decide)

/-- Modelled from the spec: the fixed difficulty-to-time-limit policy
stated in section 3 of the specification (easy 20 s, medium 60 s,
hard 120 s), to be compared with the getTimeLimit of the source. -/
def specTimeLimit : Difficulty → Nat
  | .easy => 20
  | .medium => 60
  | .hard => 120

/-- C9: the difficulty-to-time-limit mapping is a total function on the
difficulty type of questions, assigning 20 seconds to easy, 60 to medium
and 120 to hard; getTimeLimit applied to the difficulty carried by any
question agrees with the fixed policy of the specification. -/
theorem C9_time_limit_policy (q : GeneratedQuestion) :
    getTimeLimit q.difficulty.str = specTimeLimit q.difficulty := by
  cases hq : q.difficulty <;> rfl

/-- Lower and upper bound of the rounded value of a rational in
[0, 100]. -/
theorem round_bounds {x : ℚ} (h0 : 0 ≤ x) (h100 : x ≤ 100) :
    0 ≤ round x ∧ round x ≤ 100 := by
  constructor
  · rw [round_eq]
    exact Int.le_floor.mpr (by push_cast; linarith)
  · rw [round_eq]
    have hlt : ⌊x + 1 / 2⌋ < (101 : ℤ) := Int.floor_lt.mpr (by push_cast; linarith)
    omega

/-- Bounds of the fallback base score. -/
theorem fallbackBaseScore_bounds (a : ℚ) :
    0 ≤ fallbackBaseScore a ∧ fallbackBaseScore a ≤ 100 := by
  unfold fallbackBaseScore
  constructor
  · exact le_min (by norm_num) (le_max_left 0 _)
  · exact min_le_left _ _

/-- C8: the fallback score computed on scoring failure is a function of
the average answer length that is monotonically non-decreasing in that
average, its base value lies in [0, 100] for every average, and so does
the rounded value that completeInterview receives. -/
theorem C8_fallback_score_monotone_bounded :
    (∀ a b : ℚ, a ≤ b → fallbackBaseScore a ≤ fallbackBaseScore b)
    ∧ (∀ a : ℚ, 0 ≤ fallbackBaseScore a ∧ fallbackBaseScore a ≤ 100)
    ∧ (∀ a : ℚ, 0 ≤ round (fallbackBaseScore a) ∧ round (fallbackBaseScore a) ≤ 100) := by
  refine ⟨?_, fallbackBaseScore_bounds, ?_⟩
  · intro a b h
    unfold fallbackBaseScore
    exact min_le_min le_rfl (max_le_max le_rfl (by linarith))
  · intro a
    exact round_bounds (fallbackBaseScore_bounds a).1 (fallbackBaseScore_bounds a).2

/-- Monotonicity hypothesis of C8 discharged at concrete averages: the
fallback base score at average 0 is below the score at average 40, both
rounded scores lying in [0, 100]. -/
theorem C8_fallback_score_monotone_bounded_witness :
    fallbackBaseScore 0 ≤ fallbackBaseScore 40
    ∧ 0 ≤ round (fallbackBaseScore 40) ∧ round (fallbackBaseScore 40) ≤ 100 :=
  ⟨C8_fallback_score_monotone_bounded.1 0 40 (by norm_num),
    C8_fallback_score_monotone_bounded.2.2 40⟩

/-! Concrete fixtures for counterexamples and witnesses. -/

/-- Sample easy question. -/
def easyQ : GeneratedQuestion :=
  { id := 1, question := "Q1?", difficulty := .easy, category := "general",
    expected_topics := ["a"] }

/-- Sample medium question. -/
def mediumQ : GeneratedQuestion :=
  { id := 2, question := "Q2?", difficulty := .medium, category := "general",
    expected_topics := ["b"] }

/-- Sample hard question. -/
def hardQ : GeneratedQuestion :=
  { id := 3, question := "QH?", difficulty := .hard, category := "sys",
    expected_topics := [] }

/-- Sample candidate profile. -/
def sampleProfile : CandidateProfile := { name := "A", email := "a@b.c", phone := "1" }

/-- Sample mounted state. -/
def sampleState : State := initState sampleProfile "resume text"

/-- C7 counterexample: when the question source responds with an empty
list, the controller does not remain in the NotStarted shape — the run
consisting of one start operation whose outcome is the empty question list
leaves startedAt stamped, an (empty) question list stored and the
component marked as started, a partial session object contradicting the
claim that no session state is created. -/
theorem C7_counterexample :
    (run sampleState [.start 5 (.ok [])]).candidate.interviewProgress.startedAt = some 5
    ∧ (run sampleState [.start 5 (.ok [])]).candidate.interviewProgress.generatedQuestions
        = some []
    ∧ (run sampleState [.start 5 (.ok [])]).interviewStarted = true := by
  decide

/-- C4 at its failing input: a hard question is started at clock 0, the
timer ticks seventeen times, text is staged, and the Submit click executes
at wall clock 125000 ms (the event loop having lagged behind the
countdown).  The stored time for index 0 is the raw 125 seconds — strictly
above the 120-second limit of the question — because the Math.min clamp
result is discarded by the source. -/
theorem C4_unclamped_time_stored :
    ((run sampleState
      ([Op.start 0 (.ok [hardQ, mediumQ])] ++ List.replicate 17 Op.tick
        ++ [Op.setText "my answer", Op.click 125000 (.error ())])).answerTimes)[0]?
      = some 125
    ∧ getTimeLimit hardQ.difficulty.str = 120
    ∧ ¬(125 ≤ 120) := by
  decide

/-- C2 counterexample: an easy question started at clock 0 expires (twenty
ticks) with empty staged text and no manual submit; the scheduled
auto-submit is delivered at wall clock 25000 ms.  The recorded answer text
is the sentinel of the source, "No answer provided (time expired)", which
differs from the sentinel string asserted by the claim, and the recorded
time is the raw 25 elapsed seconds rather than the 20-second limit. -/
theorem C2_counterexample :
    ((run sampleState
      ([Op.start 0 (.ok [easyQ, mediumQ])] ++ List.replicate 20 Op.tick
        ++ [Op.fire 25000 (.error ())])).candidate.interviewProgress.answers.map
          (fun a => a.answer))
      = ["No answer provided (time expired)"]
    ∧ "No answer provided (time expired)" ≠ "no answer provided — time expired"
    ∧ ((run sampleState
      ([Op.start 0 (.ok [easyQ, mediumQ])] ++ List.replicate 20 Op.tick
        ++ [Op.fire 25000 (.error ())])).answerTimes)[0]? = some 25
    ∧ (25 : Nat) ≠ getTimeLimit easyQ.difficulty.str := by
  decide

/-- C6 counterexample: the timer-zero event of the first question is
delivered twice — the interval expiry schedules an auto-submit, the
safety-net effect observes the zeroed timer and schedules a second one,
and both callbacks are delivered.  Two answers are recorded and the index
advances twice, so the duplicate delivery is not a no-op. -/
theorem C6_counterexample :
    (run sampleState
      ([Op.start 0 (.ok [easyQ, mediumQ, hardQ])] ++ List.replicate 20 Op.tick
        ++ [Op.safetyCheck, Op.fire 20000 (.error ()),
          Op.fire 20100 (.error ())])).candidate.interviewProgress.answers.length = 2
    ∧ (run sampleState
      ([Op.start 0 (.ok [easyQ, mediumQ, hardQ])] ++ List.replicate 20 Op.tick
        ++ [Op.safetyCheck, Op.fire 20000 (.error ()),
          Op.fire 20100 (.error ())])).candidate.interviewProgress.questionIndex = 2 := by
  decide

/-! Helper lemmas about handleSubmitAnswer. -/

theorem handleSubmitAnswer_noop_noQuestion (now : Nat) (sc : Except Unit ScoringResponse)
    (s : State) (h : s.currentQuestion = none) :
    handleSubmitAnswer now sc s = s := by
  unfold handleSubmitAnswer
  rw [h]

theorem handleSubmitAnswer_noop_noList (now : Nat) (sc : Except Unit ScoringResponse)
    (s : State) (h : s.candidate.interviewProgress.generatedQuestions = none) :
    handleSubmitAnswer now sc s = s := by
  unfold handleSubmitAnswer
  rw [h]
  rcases hq : s.currentQuestion with _ | q <;> rfl

theorem handleSubmitAnswer_noop_inflight (now : Nat) (sc : Except Unit ScoringResponse)
    (s : State) (hauto : s.autoSubmitRef = false) (hsub : s.isSubmitting = true) :
    handleSubmitAnswer now sc s = s := by
  unfold handleSubmitAnswer
  rcases hq : s.currentQuestion with _ | q <;>
    rcases hqs : s.candidate.interviewProgress.generatedQuestions with _ | qs <;>
      simp [hauto, hsub]

/-- Common effect of a submission that passes the guard: exactly one
answer — built from the current question and the staged text or sentinel —
is appended, the index advances by one, the raw elapsed seconds are stored
at the old index, and the stored question list is untouched. -/
theorem handleSubmitAnswer_common (now : Nat) (sc : Except Unit ScoringResponse)
    (s : State) (q : GeneratedQuestion) (qs : List GeneratedQuestion)
    (hq : s.currentQuestion = some q)
    (hqs : s.candidate.interviewProgress.generatedQuestions = some qs)
    (hguard : s.autoSubmitRef = true ∨ s.isSubmitting = false) :
    (handleSubmitAnswer now sc s).candidate.interviewProgress.answers
      = s.candidate.interviewProgress.answers ++
        [{ questionId := toString q.id
           question := q.question
           answer :=
             if jsTrim s.answerText ≠ "" then jsTrim s.answerText
             else if s.autoSubmitRef = true then timeoutSentinel else ""
           timestamp := now
           difficulty := q.difficulty
           category := q.category }]
    ∧ (handleSubmitAnswer now sc s).candidate.interviewProgress.questionIndex
        = s.candidate.interviewProgress.questionIndex + 1
    ∧ (handleSubmitAnswer now sc s).answerTimes
        = s.answerTimes.set s.candidate.interviewProgress.questionIndex
            ((now - s.questionStartTime) / 1000)
    ∧ (handleSubmitAnswer now sc s).candidate.interviewProgress.generatedQuestions
        = some qs := by
  have hg : (!s.autoSubmitRef && s.isSubmitting) = false := by
    rcases hguard with h | h <;> simp [h]
  unfold handleSubmitAnswer
  rw [hq, hqs]
  by_cases hfin : s.candidate.interviewProgress.questionIndex + 1 ≥ qs.length
  · cases sc with
    | ok r =>
      simp [hg, hfin, hqs, stopTimer, addAnswerReducer, nextQuestionReducer,
        completeInterviewReducer]
    | error e =>
      simp [hg, hfin, hqs, stopTimer, addAnswerReducer, nextQuestionReducer,
        completeInterviewReducer]
  · simp [hg, hfin, hqs, stopTimer, startTimer, addAnswerReducer, nextQuestionReducer]

/-- Effect of a guard-passing submission of the final question on the
remaining state components: the session completes, the current question is
cleared, the submitting flag ends reset, the staged text and the recording
flag are untouched, and the final score is the rounded service score on
success or the rounded fallback score on failure. -/
theorem handleSubmitAnswer_final (now : Nat) (sc : Except Unit ScoringResponse)
    (s : State) (q : GeneratedQuestion) (qs : List GeneratedQuestion)
    (hq : s.currentQuestion = some q)
    (hqs : s.candidate.interviewProgress.generatedQuestions = some qs)
    (hguard : s.autoSubmitRef = true ∨ s.isSubmitting = false)
    (hfin : s.candidate.interviewProgress.questionIndex + 1 ≥ qs.length) :
    (handleSubmitAnswer now sc s).currentQuestion = none
    ∧ (handleSubmitAnswer now sc s).candidate.interviewProgress.isComplete = true
    ∧ (handleSubmitAnswer now sc s).isSubmitting = false
    ∧ (handleSubmitAnswer now sc s).answerText = s.answerText
    ∧ (handleSubmitAnswer now sc s).isVoiceRecording = s.isVoiceRecording
    ∧ (handleSubmitAnswer now sc s).candidate.finalScore
        = some (match sc with
            | .ok r => round (overallOf r)
            | .error _ => round (fallbackBaseScore (averageAnswerLength
                (s.candidate.interviewProgress.answers ++
                  [{ questionId := toString q.id,
                     question := q.question,
                     answer :=
                       if jsTrim s.answerText ≠ "" then jsTrim s.answerText
                       else if s.autoSubmitRef = true then timeoutSentinel else "",
                     timestamp := now,
                     difficulty := q.difficulty,
                     category := q.category }])))) := by
  have hg : (!s.autoSubmitRef && s.isSubmitting) = false := by
    rcases hguard with h | h <;> simp [h]
  unfold handleSubmitAnswer
  rw [hq, hqs]
  cases sc with
  | ok r =>
    simp [hg, hfin, stopTimer, addAnswerReducer, nextQuestionReducer,
      completeInterviewReducer]
  | error e =>
    simp [hg, hfin, stopTimer, addAnswerReducer, nextQuestionReducer,
      completeInterviewReducer]

/-- Effect of a guard-passing submission of a non-final question on the
remaining state components: the next question is loaded, the staged text
cleared, a full timer armed for the new question, and the auto-submit and
submitting flags reset. -/
theorem handleSubmitAnswer_nonfinal (now : Nat) (sc : Except Unit ScoringResponse)
    (s : State) (q : GeneratedQuestion) (qs : List GeneratedQuestion)
    (hq : s.currentQuestion = some q)
    (hqs : s.candidate.interviewProgress.generatedQuestions = some qs)
    (hguard : s.autoSubmitRef = true ∨ s.isSubmitting = false)
    (hfin : s.candidate.interviewProgress.questionIndex + 1 < qs.length) :
    (handleSubmitAnswer now sc s).currentQuestion
      = some (qs.get ⟨s.candidate.interviewProgress.questionIndex + 1, hfin⟩)
    ∧ (handleSubmitAnswer now sc s).answerText = ""
    ∧ (handleSubmitAnswer now sc s).timeLeft
        = getTimeLimit
            (qs.get ⟨s.candidate.interviewProgress.questionIndex + 1, hfin⟩).difficulty.str
    ∧ (handleSubmitAnswer now sc s).isSubmitting = false
    ∧ (handleSubmitAnswer now sc s).autoSubmitRef = false
    ∧ (handleSubmitAnswer now sc s).isVoiceRecording = s.isVoiceRecording
    ∧ (handleSubmitAnswer now sc s).timerRunning = true
    ∧ (handleSubmitAnswer now sc s).questionStartTime = now := by
  have hg : (!s.autoSubmitRef && s.isSubmitting) = false := by
    rcases hguard with h | h <;> simp [h]
  have hfin' : ¬(s.candidate.interviewProgress.questionIndex + 1 ≥ qs.length) := by
    omega
  unfold handleSubmitAnswer
  rw [hq, hqs]
  simp [hg, hfin', stopTimer, startTimer, addAnswerReducer, nextQuestionReducer]

/-- Reduction of a timer expiry followed by delivery of the scheduled
auto-submit callback. -/
theorem fire_tick_eq (s : State) (now : Nat) (sc : Except Unit ScoringResponse)
    (hrun : s.timerRunning = true) (hleft : s.timeLeft ≤ 1) :
    fire now sc (tick s)
      = handleSubmitAnswer now sc
          { s with
            timeLeft := 0
            timerRunning := false
            autoSubmitRef := true
            pendingFires := s.pendingFires } := by
  have htick : tick s =
      { s with
        timeLeft := 0
        timerRunning := false
        autoSubmitRef := true
        pendingFires := s.pendingFires + 1 } := by
    unfold tick
    rw [hrun]
    simp [hleft]
  rw [htick]
  unfold fire
  simp

/-- Every difficulty maps to a limit above the five-second button
threshold. -/
theorem five_lt_getTimeLimit (d : Difficulty) : 5 < getTimeLimit d.str := by
  cases d <;> decide

/-- C2 (amended): when the countdown of the current question reaches zero
with empty staged text and the scheduled auto-submit is delivered exactly
timeLimitSeconds after the question start, the recorded answer text is the
sentinel of the source — "No answer provided (time expired)" — and the
recorded time for the question equals its full time limit in seconds. -/
theorem C2_amended_timeout_sentinel
    (s : State) (q : GeneratedQuestion) (qs : List GeneratedQuestion)
    (now : Nat) (sc : Except Unit ScoringResponse)
    (hq : s.currentQuestion = some q)
    (hqs : s.candidate.interviewProgress.generatedQuestions = some qs)
    (htext : jsTrim s.answerText = "")
    (hrun : s.timerRunning = true)
    (hleft : s.timeLeft ≤ 1)
    (hnow : now = s.questionStartTime + 1000 * getTimeLimit q.difficulty.str)
    (hidx : s.candidate.interviewProgress.questionIndex < s.answerTimes.length) :
    (fire now sc (tick s)).candidate.interviewProgress.answers
      = s.candidate.interviewProgress.answers ++
        [{ questionId := toString q.id,
           question := q.question,
           answer := timeoutSentinel,
           timestamp := now,
           difficulty := q.difficulty,
           category := q.category }]
    ∧ (fire now sc (tick s)).answerTimes[s.candidate.interviewProgress.questionIndex]?
        = some (getTimeLimit q.difficulty.str) := by
  rw [fire_tick_eq s now sc hrun hleft]
  obtain ⟨h1, h2, h3, h4⟩ := handleSubmitAnswer_common now sc
    { s with
      timeLeft := 0
      timerRunning := false
      autoSubmitRef := true
      pendingFires := s.pendingFires } q qs (by simpa using hq) (by simpa using hqs)
    (Or.inl rfl)
  have htime : (now - s.questionStartTime) / 1000 = getTimeLimit q.difficulty.str := by
    rw [hnow, Nat.add_sub_cancel_left]
    exact Nat.mul_div_cancel_left _ (by norm_num)
  constructor
  · rw [h1]
    simp [htext]
  · rw [h3]
    simp only [htime]
    simp [List.getElem?_set_self', hidx]

/-- C5: delivery of the timer-expiry auto-submit records an answer and
advances the index from any awaiting state, with no assumption on the
isSubmitting flag — the auto-submit flag set by the expiring interval
bypasses the in-flight guard, so a nominally in-flight manual submission
cannot stall the session once time is exhausted. -/
theorem C5_expiry_always_advances
    (s : State) (q : GeneratedQuestion) (qs : List GeneratedQuestion)
    (now : Nat) (sc : Except Unit ScoringResponse)
    (hq : s.currentQuestion = some q)
    (hqs : s.candidate.interviewProgress.generatedQuestions = some qs)
    (hrun : s.timerRunning = true)
    (hleft : s.timeLeft ≤ 1) :
    (fire now sc (tick s)).candidate.interviewProgress.answers.length
      = s.candidate.interviewProgress.answers.length + 1
    ∧ (fire now sc (tick s)).candidate.interviewProgress.questionIndex
      = s.candidate.interviewProgress.questionIndex + 1 := by
  rw [fire_tick_eq s now sc hrun hleft]
  obtain ⟨h1, h2, h3, h4⟩ := handleSubmitAnswer_common now sc
    { s with
      timeLeft := 0
      timerRunning := false
      autoSubmitRef := true
      pendingFires := s.pendingFires } q qs (by simpa using hq) (by simpa using hqs)
    (Or.inl rfl)
  refine ⟨?_, by simpa using h2⟩
  rw [h1]
  simp

/-- C3: a guard-passing submission of the final question completes the
session with a non-null final score in [0, 100] for both scoring-service
outcomes — a thrown error yields the rounded fallback score, a response
yields the rounded service score, in range whenever the response honours
the documented 0-100 scale of the scoring interface (an absent final_score
field is read as 0). -/
theorem C3_completion_deterministic
    (s : State) (q : GeneratedQuestion) (qs : List GeneratedQuestion)
    (now : Nat) (sc : Except Unit ScoringResponse)
    (hq : s.currentQuestion = some q)
    (hqs : s.candidate.interviewProgress.generatedQuestions = some qs)
    (hguard : s.autoSubmitRef = true ∨ s.isSubmitting = false)
    (hfin : s.candidate.interviewProgress.questionIndex + 1 ≥ qs.length)
    (hsc : ∀ r, sc = Except.ok r → 0 ≤ overallOf r ∧ overallOf r ≤ 100) :
    (handleSubmitAnswer now sc s).candidate.interviewProgress.isComplete = true
    ∧ ∃ v : Int, (handleSubmitAnswer now sc s).candidate.finalScore = some v
        ∧ 0 ≤ v ∧ v ≤ 100 := by
  obtain ⟨hcq, hcomp, hsub, hat, hrec, hscore⟩ :=
    handleSubmitAnswer_final now sc s q qs hq hqs hguard hfin
  refine ⟨hcomp, ?_⟩
  cases sc with
  | ok r =>
    obtain ⟨hr0, hr100⟩ := hsc r rfl
    exact ⟨round (overallOf r), by simpa using hscore,
      (round_bounds hr0 hr100).1, (round_bounds hr0 hr100).2⟩
  | error e =>
    obtain ⟨hb0, hb100⟩ := fallbackBaseScore_bounds (averageAnswerLength
      (s.candidate.interviewProgress.answers ++
        [{ questionId := toString q.id,
           question := q.question,
           answer :=
             if jsTrim s.answerText ≠ "" then jsTrim s.answerText
             else if s.autoSubmitRef = true then timeoutSentinel else "",
           timestamp := now,
           difficulty := q.difficulty,
           category := q.category }]))
    exact ⟨_, by simpa using hscore, (round_bounds hb0 hb100).1,
      (round_bounds hb0 hb100).2⟩

/-- C6 (amended): a double click on Submit records exactly one answer and
advances exactly once — after the first click the controller has either
loaded the next question with cleared text and a fresh timer, leaving the
button disabled, or completed the session, leaving no current question, so
the second click is a no-op.  The counterexample shows the other half of
the original claim fails: a twice-delivered timer-zero event is not
suppressed. -/
theorem C6_amended_double_click_noop
    (s : State) (q : GeneratedQuestion) (qs : List GeneratedQuestion)
    (now now' : Nat) (sc sc' : Except Unit ScoringResponse)
    (hq : s.currentQuestion = some q)
    (hqs : s.candidate.interviewProgress.generatedQuestions = some qs)
    (hsub : s.isSubmitting = false)
    (htext : jsTrim s.answerText ≠ "")
    (hrec : s.isVoiceRecording = false) :
    clickSubmit now' sc' (clickSubmit now sc s) = clickSubmit now sc s
    ∧ (clickSubmit now sc s).candidate.interviewProgress.answers.length
        = s.candidate.interviewProgress.answers.length + 1
    ∧ (clickSubmit now sc s).candidate.interviewProgress.questionIndex
        = s.candidate.interviewProgress.questionIndex + 1 := by
  have hclick : clickSubmit now sc s = handleSubmitAnswer now sc s := by
    unfold clickSubmit
    simp [htext, hsub]
  obtain ⟨h1, h2, h3, h4⟩ :=
    handleSubmitAnswer_common now sc s q qs hq hqs (Or.inr hsub)
  refine ⟨?_, by rw [hclick, h1]; simp, by rw [hclick]; exact h2⟩
  rw [hclick]
  by_cases hfin : s.candidate.interviewProgress.questionIndex + 1 ≥ qs.length
  · obtain ⟨hcq, _, hsub', hat, hrec', _⟩ :=
      handleSubmitAnswer_final now sc s q qs hq hqs (Or.inr hsub) hfin
    unfold clickSubmit
    rw [hat, hsub']
    simp only [htext, hrec, hrec']
    simp [htext, handleSubmitAnswer_noop_noQuestion now' sc' _ hcq]
  · have hfin' : s.candidate.interviewProgress.questionIndex + 1 < qs.length := by
      omega
    obtain ⟨hcq, hat, htl, hsub', hauto', hrec', htr, hqst⟩ :=
      handleSubmitAnswer_nonfinal now sc s q qs hq hqs (Or.inr hsub) hfin'
    unfold clickSubmit
    rw [hat, hsub', htl]
    have h5 : 5 < getTimeLimit
        (qs.get ⟨s.candidate.interviewProgress.questionIndex + 1, hfin'⟩).difficulty.str :=
      five_lt_getTimeLimit _
    have hrec'' : (handleSubmitAnswer now sc s).isVoiceRecording = false := by
      rw [hrec']; exact hrec
    simp [h5, hrec'', jsTrim]
    exact fun hcontra => absurd (lt_of_lt_of_le h5 hcontra) (lt_irrefl _)

/-- C7 (amended): a question-source failure leaves the controller state
completely unchanged, so the start operation can simply be retried; an
empty question list, however, does create a partial session before the
failure is caught — startedAt is stamped, the empty list is stored, the
index is zero with no answers, no current question is loaded and the
component is marked started, with no timer armed. -/
theorem C7_amended_start_failure :
    (∀ (s : State) (now : Nat), handleStartInterview now (.error ()) s = s)
    ∧ (∀ (s : State) (now : Nat),
        s.candidate.profile.isSome = true →
        s.candidate.resumeText.isSome = true →
        (handleStartInterview now (.ok []) s).candidate.interviewProgress.startedAt
            = some now
        ∧ (handleStartInterview now (.ok []) s).candidate.interviewProgress.generatedQuestions
            = some []
        ∧ (handleStartInterview now (.ok []) s).candidate.interviewProgress.answers = []
        ∧ (handleStartInterview now (.ok []) s).candidate.interviewProgress.questionIndex = 0
        ∧ (handleStartInterview now (.ok []) s).currentQuestion = none
        ∧ (handleStartInterview now (.ok []) s).interviewStarted = true
        ∧ (handleStartInterview now (.ok []) s).timerRunning = s.timerRunning) := by
  constructor
  · intro s now
    unfold handleStartInterview
    by_cases hcond : s.candidate.profile.isNone ∨ s.candidate.resumeText.isNone <;>
      simp [hcond]
  · intro s now hp hr
    obtain ⟨p, hpeq⟩ := Option.isSome_iff_exists.mp hp
    obtain ⟨rt, hreq⟩ := Option.isSome_iff_exists.mp hr
    unfold handleStartInterview
    simp [hpeq, hreq, startInterviewReducer]

/-- State of C2's witness run: an easy question started at clock 0,
nineteen elapsed ticks, one second left on the countdown. -/
def c2WitnessState : State :=
  run sampleState ([Op.start 0 (.ok [easyQ, mediumQ])] ++ List.replicate 19 Op.tick)

/-- Hypotheses of the amended C2 discharged on a concrete run: the easy
question expires at clock 20000 with empty staged text, recording the
sentinel answer and the full 20-second limit. -/
theorem C2_amended_timeout_sentinel_witness :
    (fire 20000 (.error ()) (tick c2WitnessState)).candidate.interviewProgress.answers
      = c2WitnessState.candidate.interviewProgress.answers ++
        [{ questionId := toString easyQ.id,
           question := easyQ.question,
           answer := timeoutSentinel,
           timestamp := 20000,
           difficulty := easyQ.difficulty,
           category := easyQ.category }]
    ∧ (fire 20000 (.error ())
        (tick c2WitnessState)).answerTimes[c2WitnessState.candidate.interviewProgress.questionIndex]?
        = some (getTimeLimit easyQ.difficulty.str) :=
  C2_amended_timeout_sentinel c2WitnessState easyQ [easyQ, mediumQ] 20000 (.error ())
    (by decide) (by decide) (by decide) (by decide) (by decide) (by decide) (by decide)

/-- Hypotheses of C5 discharged on a concrete awaiting state whose
isSubmitting flag is raised: the expiry still records and advances. -/
theorem C5_expiry_always_advances_witness :
    (fire 20000 (.error ())
        (tick { c2WitnessState with isSubmitting := true })).candidate.interviewProgress.answers.length
      = ({ c2WitnessState with isSubmitting := true } : State).candidate.interviewProgress.answers.length + 1
    ∧ (fire 20000 (.error ())
        (tick { c2WitnessState with isSubmitting := true })).candidate.interviewProgress.questionIndex
      = ({ c2WitnessState with isSubmitting := true } : State).candidate.interviewProgress.questionIndex + 1 :=
  C5_expiry_always_advances { c2WitnessState with isSubmitting := true }
    easyQ [easyQ, mediumQ] 20000 (.error ())
    (by decide) (by decide) (by decide) (by decide)

/-- State of C3's witness: a one-question session with staged text. -/
def c3WitnessState : State :=
  run sampleState [Op.start 0 (.ok [easyQ]), Op.setText "my answer"]

/-- Hypotheses of C3 discharged on a concrete final-question submission
whose scoring call fails: the session completes with a score in range. -/
theorem C3_completion_deterministic_witness :
    (handleSubmitAnswer 5000 (.error ()) c3WitnessState).candidate.interviewProgress.isComplete
      = true
    ∧ ∃ v : Int,
        (handleSubmitAnswer 5000 (.error ()) c3WitnessState).candidate.finalScore = some v
        ∧ 0 ≤ v ∧ v ≤ 100 :=
  C3_completion_deterministic c3WitnessState easyQ [easyQ] 5000 (.error ())
    (by decide) (by decide) (Or.inr (by decide)) (by decide)
    (fun r h => Except.noConfusion h)

/-- State of C6's witness: a two-question session with staged text. -/
def c6WitnessState : State :=
  run sampleState [Op.start 0 (.ok [easyQ, mediumQ]), Op.setText "hello"]

/-- Hypotheses of the amended C6 discharged on a concrete double click:
the second click is a no-op and exactly one answer and advancement
result. -/
theorem C6_amended_double_click_noop_witness :
    clickSubmit 4100 (.error ()) (clickSubmit 4000 (.error ()) c6WitnessState)
      = clickSubmit 4000 (.error ()) c6WitnessState
    ∧ (clickSubmit 4000 (.error ()) c6WitnessState).candidate.interviewProgress.answers.length
        = c6WitnessState.candidate.interviewProgress.answers.length + 1
    ∧ (clickSubmit 4000 (.error ()) c6WitnessState).candidate.interviewProgress.questionIndex
        = c6WitnessState.candidate.interviewProgress.questionIndex + 1 :=
  C6_amended_double_click_noop c6WitnessState easyQ [easyQ, mediumQ] 4000 4100
    (.error ()) (.error ())
    (by decide) (by decide) (by decide) (by decide) (by decide)

/-- Hypotheses of the amended C7 discharged on the concrete mounted state:
a thrown question-source error is a no-op and an empty list creates the
partial session. -/
theorem C7_amended_start_failure_witness :
    handleStartInterview 7 (.error ()) sampleState = sampleState
    ∧ (handleStartInterview 5 (.ok []) sampleState).candidate.interviewProgress.startedAt
        = some 5
    ∧ (handleStartInterview 5 (.ok []) sampleState).currentQuestion = none :=
  ⟨C7_amended_start_failure.1 sampleState 7,
    (C7_amended_start_failure.2 sampleState 5 (by decide) (by decide)).1,
    (C7_amended_start_failure.2 sampleState 5 (by decide) (by decide)).2.2.2.2.1⟩

/-- Reachability invariant of the controller: the number of recorded
answers equals the current index, a session without a stored question list
is untouched, and relative to the stored list the index is in range, every
recorded answer at position i is the answer to question i, and the loaded
current question is the question at the current index. -/
def ReachInv (s : State) : Prop :=
  s.candidate.interviewProgress.answers.length
      = s.candidate.interviewProgress.questionIndex
  ∧ (s.candidate.interviewProgress.generatedQuestions = none →
      s.candidate.interviewProgress.answers = []
      ∧ s.candidate.interviewProgress.questionIndex = 0
      ∧ s.currentQuestion = none)
  ∧ ∀ qs, s.candidate.interviewProgress.generatedQuestions = some qs →
      s.candidate.interviewProgress.questionIndex ≤ qs.length
      ∧ (∀ i, i < s.candidate.interviewProgress.questionIndex →
          ∃ a qq, s.candidate.interviewProgress.answers[i]? = some a
            ∧ qs[i]? = some qq
            ∧ a.questionId = toString qq.id ∧ a.question = qq.question)
      ∧ ∀ q, s.currentQuestion = some q →
          qs[s.candidate.interviewProgress.questionIndex]? = some q

theorem ReachInv_submit_pass (now : Nat) (sc : Except Unit ScoringResponse)
    (s : State) (q : GeneratedQuestion) (qs : List GeneratedQuestion)
    (hq : s.currentQuestion = some q)
    (hqs : s.candidate.interviewProgress.generatedQuestions = some qs)
    (hguard : s.autoSubmitRef = true ∨ s.isSubmitting = false)
    (hInv : ReachInv s) : ReachInv (handleSubmitAnswer now sc s) := by
  obtain ⟨hlen, hnone, hsome⟩ := hInv
  obtain ⟨hbound, hcorr, hcur⟩ := hsome qs hqs
  have hqidx : qs[s.candidate.interviewProgress.questionIndex]? = some q := hcur q hq
  have hidxlt : s.candidate.interviewProgress.questionIndex < qs.length := by
    by_contra hge
    rw [List.getElem?_eq_none (le_of_not_lt hge)] at hqidx
    cases hqidx
  obtain ⟨h1, h2, h3, h4⟩ := handleSubmitAnswer_common now sc s q qs hq hqs hguard
  refine ⟨?_, ?_, ?_⟩
  · rw [h1, h2, List.length_append, hlen]
    rfl
  · intro hcontra
    rw [h4] at hcontra
    cases hcontra
  · intro qs' hqs'
    rw [h4] at hqs'
    injection hqs' with hqq
    subst hqq
    refine ⟨?_, ?_, ?_⟩
    · rw [h2]
      omega
    · intro i hi
      rw [h2] at hi
      rw [h1]
      by_cases hlt : i < s.candidate.interviewProgress.questionIndex
      · obtain ⟨a, qq, ha, hqq', hid, hqt⟩ := hcorr i hlt
        refine ⟨a, qq, ?_, hqq', hid, hqt⟩
        rw [List.getElem?_append_left (by omega)]
        exact ha
      · have hieq : i = s.candidate.interviewProgress.questionIndex := by omega
        subst hieq
        refine ⟨{ questionId := toString q.id,
                  question := q.question,
                  answer :=
                    if jsTrim s.answerText ≠ "" then jsTrim s.answerText
                    else if s.autoSubmitRef = true then timeoutSentinel else "",
                  timestamp := now,
                  difficulty := q.difficulty,
                  category := q.category }, q, ?_, hqidx, rfl, rfl⟩
        rw [← hlen]
        exact List.getElem?_concat_length _ _
    · intro q' hq'
      by_cases hfin : s.candidate.interviewProgress.questionIndex + 1 ≥ qs.length
      · have hnone' := (handleSubmitAnswer_final now sc s q qs hq hqs hguard hfin).1
        rw [hnone'] at hq'
        cases hq'
      · have hfin' : s.candidate.interviewProgress.questionIndex + 1 < qs.length := by
          omega
        have hcq := (handleSubmitAnswer_nonfinal now sc s q qs hq hqs hguard hfin').1
        rw [hcq] at hq'
        injection hq' with hqeq
        subst hqeq
        rw [h2, List.getElem?_eq_getElem hfin', List.get_eq_getElem]

theorem ReachInv_submit (now : Nat) (sc : Except Unit ScoringResponse) (s : State)
    (hInv : ReachInv s) : ReachInv (handleSubmitAnswer now sc s) := by
  rcases hq : s.currentQuestion with _ | q
  · rw [handleSubmitAnswer_noop_noQuestion now sc s hq]
    exact hInv
  rcases hqs : s.candidate.interviewProgress.generatedQuestions with _ | qs
  · rw [handleSubmitAnswer_noop_noList now sc s hqs]
    exact hInv
  cases hauto : s.autoSubmitRef with
  | true => exact ReachInv_submit_pass now sc s q qs hq hqs (Or.inl hauto) hInv
  | false =>
    cases hsub : s.isSubmitting with
    | false => exact ReachInv_submit_pass now sc s q qs hq hqs (Or.inr hsub) hInv
    | true =>
      rw [handleSubmitAnswer_noop_inflight now sc s hauto hsub]
      exact hInv

theorem ReachInv_start (now : Nat) (outcome : Except Unit (List GeneratedQuestion))
    (s : State) (hInv : ReachInv s) : ReachInv (handleStartInterview now outcome s) := by
  unfold handleStartInterview
  by_cases hcond : s.candidate.profile.isNone ∨ s.candidate.resumeText.isNone
  · rw [if_pos hcond]
    exact hInv
  · rw [if_neg hcond]
    cases outcome with
    | error e => exact hInv
    | ok qs =>
      cases qs with
      | nil =>
        refine ⟨by simp [startInterviewReducer], by simp [startInterviewReducer], ?_⟩
        intro qs' hqs'
        simp [startInterviewReducer] at hqs'
        subst hqs'
        refine ⟨by simp [startInterviewReducer], ?_, ?_⟩
        · intro i hi
          simp [startInterviewReducer] at hi
        · intro q' hq'
          simp at hq'
      | cons q rest =>
        refine ⟨by simp [startInterviewReducer, startTimer], ?_, ?_⟩
        · intro hcontra
          simp [startInterviewReducer, startTimer] at hcontra
        · intro qs' hqs'
          simp [startInterviewReducer, startTimer] at hqs'
          subst hqs'
          refine ⟨by simp [startInterviewReducer, startTimer], ?_, ?_⟩
          · intro i hi
            simp [startInterviewReducer, startTimer] at hi
          · intro q' hq'
            simp [startTimer] at hq'
            subst hq'
            simp [startInterviewReducer, startTimer]

theorem ReachInv_step (s : State) (op : Op) (hInv : ReachInv s) :
    ReachInv (step s op) := by
  cases op with
  | start now outcome => exact ReachInv_start now outcome s hInv
  | setText t =>
    show ReachInv (setAnswerText t s)
    unfold setAnswerText
    split
    · exact hInv
    · exact hInv
  | click now sc =>
    show ReachInv (clickSubmit now sc s)
    unfold clickSubmit
    dsimp only
    split
    · exact hInv
    · exact ReachInv_submit now sc s hInv
  | tick =>
    show ReachInv (tick s)
    unfold tick
    split
    · split
      · exact hInv
      · exact hInv
    · exact hInv
  | safetyCheck =>
    show ReachInv (safetyCheck s)
    unfold safetyCheck
    split
    · exact hInv
    · exact hInv
  | fire now sc =>
    show ReachInv (fire now sc s)
    unfold fire
    split
    · exact hInv
    · exact ReachInv_submit now sc _ hInv

theorem ReachInv_run (s : State) (ops : List Op) (hInv : ReachInv s) :
    ReachInv (run s ops) := by
  induction ops generalizing s with
  | nil => exact hInv
  | cons op rest ih => exact ih (step s op) (ReachInv_step s op hInv)

theorem ReachInv_init (p : CandidateProfile) (resume : String) :
    ReachInv (initState p resume) := by
  refine ⟨rfl, fun _ => ⟨rfl, rfl, rfl⟩, ?_⟩
  intro qs h
  cases h

/-- C1: along every sequence of controller operations from the mounted
state, the number of recorded answers equals the current question index
after each operation, and each recorded answer at position i is the
(unique) answer to question i of the stored list — so every index is
answered at most once and answers are appended strictly in question
order. -/
theorem C1_answers_track_index (p : CandidateProfile) (resume : String)
    (ops : List Op) :
    (run (initState p resume) ops).candidate.interviewProgress.answers.length
      = (run (initState p resume) ops).candidate.interviewProgress.questionIndex
    ∧ ∀ qs, (run (initState p resume) ops).candidate.interviewProgress.generatedQuestions
          = some qs →
        ∀ i, i < (run (initState p resume) ops).candidate.interviewProgress.questionIndex →
          ∃ a qq,
            (run (initState p resume) ops).candidate.interviewProgress.answers[i]? = some a
            ∧ qs[i]? = some qq
            ∧ a.questionId = toString qq.id ∧ a.question = qq.question := by
  have h := ReachInv_run (initState p resume) ops (ReachInv_init p resume)
  exact ⟨h.1, fun qs hqs => (h.2.2 qs hqs).2.1⟩

/-- Hypotheses of C1 discharged on a concrete run of two submissions: the
answer count equals the index and the first recorded answer is the answer
to the first question. -/
theorem C1_answers_track_index_witness :
    (run (initState sampleProfile "resume text")
        [Op.start 0 (.ok [easyQ, mediumQ]), Op.setText "hi",
          Op.click 3000 (.error ())]).candidate.interviewProgress.answers.length
      = (run (initState sampleProfile "resume text")
          [Op.start 0 (.ok [easyQ, mediumQ]), Op.setText "hi",
            Op.click 3000 (.error ())]).candidate.interviewProgress.questionIndex
    ∧ ∃ a qq,
        (run (initState sampleProfile "resume text")
          [Op.start 0 (.ok [easyQ, mediumQ]), Op.setText "hi",
            Op.click 3000 (.error ())]).candidate.interviewProgress.answers[0]? = some a
        ∧ [easyQ, mediumQ][0]? = some qq
        ∧ a.questionId = toString qq.id ∧ a.question = qq.question :=
  ⟨(C1_answers_track_index sampleProfile "resume text"
      [Op.start 0 (.ok [easyQ, mediumQ]), Op.setText "hi", Op.click 3000 (.error ())]).1,
    (C1_answers_track_index sampleProfile "resume text"
      [Op.start 0 (.ok [easyQ, mediumQ]), Op.setText "hi",
        Op.click 3000 (.error ())]).2 [easyQ, mediumQ] (by decide) 0 (by decide)⟩

end Swipe
